import Mathlib

/-!
Shallow embedding of the Telegram moderation bot in `src/Ladki.py`.

Modelling conventions:
* Wall-clock time is `Nat` (seconds).  Each handler receives the instant `now`
  at which it runs, standing for the `now_utc()` calls the source makes while
  processing a single event.
* The module-level mutable dictionaries and sets of the source
  (`ADMIN_IDS`, `WHITELIST`, `BANNED`, `STRIKES`, `LAST_WARN_TIME`,
  `PENDING_CONFIRM`, `CHAT_CONTEXT`) become the fields of `BotState`;
  dictionaries are association lists observed through `alookup`.
* The classifier regexes (`QUESTION_RE`, `AFFIRM_RE`, `PRONOUN_RE` and the
  pattern inside `confirmed_not_female`) are pure, stateless predicates on the
  message text; a message enters the pipeline only through their four Boolean
  outcomes, which the `Msg` record carries (the source's
  `AFFIRM_RE.search(text)`, `QUESTION_RE.search(text)`, `PRONOUN_RE.search(text)`
  and `confirmed_not_female(text)` respectively).
* Outbound platform calls (`bot.send_message`, `bot.ban_chat_member`) are
  recorded as `Action`s.  Whether `ban_chat_member` succeeds or raises is an
  input (`platformOk`), since it is decided by the external platform.
* Sections guarded by `STATE_LOCK` in the source run without interleaving;
  each handler is therefore a function from the shared state to the next
  shared state plus the emitted actions, and a concurrent schedule is an
  ordering of such atomic steps.
-/

set_option autoImplicit false

namespace Ladki

/-- Lookup in an association list (first binding wins), the observable
behaviour of a Python `dict.get`. -/
def alookup {α β : Type} [DecidableEq α] : List (α × β) → α → Option β
  | [], _ => none
  | p :: rest, a => if p.1 = a then some p.2 else alookup rest a

/-- Remove every binding of key `a`; models `dict.pop(a, None)`. -/
def aerase {α β : Type} [DecidableEq α] (a : α) (l : List (α × β)) : List (α × β) :=
  l.filter (fun p => decide (p.1 ≠ a))

/-- Overwrite the binding of key `a`; models `dict[a] = b`. -/
def ainsert {α β : Type} [DecidableEq α] (a : α) (b : β) (l : List (α × β)) : List (α × β) :=
  (a, b) :: aerase a l

/-- Add an element to a list used as a set; models `set.add`. -/
def setAdd {α : Type} [DecidableEq α] (a : α) (l : List α) : List α :=
  if a ∈ l then l else a :: l

/-- Policy table, the `POLICY` dict of the source (keys and kinds unchanged). -/
structure Policy where
  autoban_on_affirm_female : Bool
  warn_then_ban_pronouns : Bool
  username_heuristics : Bool
  username_confirm_timeout_s : Nat
  tempban_seconds : Nat
  strike_window_days : Nat
  rate_limit_warn_s : Nat
  context_window_messages : Nat
deriving DecidableEq

/-- Default values of the `POLICY` dict. -/
def defaultPolicy : Policy where
  autoban_on_affirm_female := true
  warn_then_ban_pronouns := true
  username_heuristics := true
  username_confirm_timeout_s := 120
  tempban_seconds := 24 * 3600
  strike_window_days := 7
  rate_limit_warn_s := 20
  context_window_messages := 30

/-- Outcome of the four pure classifier regexes on one message text. -/
structure Msg where
  affirm : Bool
  question : Bool
  pronoun : Bool
  negation : Bool
deriving DecidableEq

/-- One `(dt, user_id, text)` tuple stored in a chat's context deque; the raw
text is only ever consulted through `QUESTION_RE`, so the stored classification
stands for it. -/
structure CtxEntry where
  ts : Nat
  uid : Int
  msg : Msg
deriving DecidableEq

/-- A per-chat `deque(maxlen=...)`, oldest entry first. -/
structure ChatCtx where
  maxlen : Nat
  entries : List CtxEntry
deriving DecidableEq

/-- One value of the `STRIKES` dict: `{"count": int, "last": datetime}`. -/
structure StrikeRec where
  count : Nat
  last : Option Nat
deriving DecidableEq

/-- Texts the bot sends, kept structured (the source builds them with
f-strings; only their identity matters here). -/
inductive Note where
  | warnNote (user : Int) (reason : String)
  | bannedNote (user : Int) (reason : String)
  | banFailedNote (user : Int)
  | confirmAccepted (user : Int)
  | confirmPrompt (user : Int)
  | usage (cmd : String)
  | whitelistedNote (uid : Int)
deriving DecidableEq

/-- Outbound platform calls made while handling one event. -/
inductive Action where
  | banChatMember (chat user : Int) (untilDate : Option Nat)
  | sendMessage (chat : Int) (note : Note)
  | reply (note : Note)
deriving DecidableEq

/-- Python exceptions that can escape the command handlers. -/
inductive PyErr where
  | valueError
  | typeError
deriving DecidableEq

/-- The module-level shared state of the source. -/
structure BotState where
  ADMIN_IDS : List Int
  WHITELIST : List Int
  BANNED : List Int
  STRIKES : List (Int × StrikeRec)
  LAST_WARN_TIME : List ((Int × Int) × Nat)
  PENDING_CONFIRM : List (Int × Nat)
  CHAT_CONTEXT : List (Int × ChatCtx)
deriving DecidableEq

/-- State at process start: `ADMIN_IDS = {123456789}`, everything else empty. -/
def initialState : BotState where
  ADMIN_IDS := [123456789]
  WHITELIST := []
  BANNED := []
  STRIKES := []
  LAST_WARN_TIME := []
  PENDING_CONFIRM := []
  CHAT_CONTEXT := []

/-- Source `is_admin`. -/
def is_admin (s : BotState) (user_id : Int) : Bool :=
  decide (user_id ∈ s.ADMIN_IDS)

/-- Source `is_whitelisted`. -/
def is_whitelisted (s : BotState) (user_id : Int) : Bool :=
  decide (user_id ∈ s.WHITELIST)

/-- Source `within(dt, td)`: `dt is not None and (now_utc() - dt) <= td`, with
the current instant passed explicitly. -/
def within (dt : Option Nat) (td : Nat) (now : Nat) : Bool :=
  match dt with
  | none => false
  | some t => decide (now - t ≤ td)

/-- Python `seconds or default`: `None` and `0` are falsy. -/
def pyOr (x : Option Nat) (d : Nat) : Nat :=
  match x with
  | none => d
  | some 0 => d
  | some k => k

/-- Source `rate_limited`: returns the decision and the updated
`LAST_WARN_TIME` table (the source updates the table in place exactly when it
returns `False`). -/
def rate_limited (P : Policy) (now : Nat) (lw : List ((Int × Int) × Nat))
    (chat_id user_id : Int) : Bool × List ((Int × Int) × Nat) :=
  match alookup lw (chat_id, user_id) with
  | some last =>
      if now - last < P.rate_limit_warn_s then (true, lw)
      else (false, ainsert (chat_id, user_id) now lw)
  | none => (false, ainsert (chat_id, user_id) now lw)

/-- Source `context_for_chat`: the chat's deque, a fresh
`deque(maxlen=POLICY["context_window_messages"])` when absent.  (The source
also stores the fresh deque back into `CHAT_CONTEXT`; callers below perform
that store when they mutate the deque, and a fresh deque is empty, so reads
are unaffected.) -/
def context_for_chat (P : Policy) (cc : List (Int × ChatCtx)) (chat_id : Int) : ChatCtx :=
  match alookup cc chat_id with
  | some dq => dq
  | none => { maxlen := P.context_window_messages, entries := [] }

/-- `deque.append` with `maxlen`: append on the right, evict from the left
when over capacity. -/
def ctxAppend (dq : ChatCtx) (e : CtxEntry) : ChatCtx :=
  let l := dq.entries ++ [e]
  { dq with entries := l.drop (l.length - dq.maxlen) }

/-- The `for (ts, uid, txt) in reversed(dq)` loop of
`link_question_and_answer`, newest entry first: entries older than 180 s
`break` out of the loop (which then returns `True`); a question entry returns
`True` in both of its `uid` branches (source lines 129-134); an exhausted
loop also returns `True`. -/
def linkScan (now : Nat) (sender_id : Int) : List CtxEntry → Bool
  | [] => true
  | e :: rest =>
      if now - e.ts > 180 then true
      else if e.msg.question then
        (if e.uid ≠ sender_id then true else true)
      else linkScan now sender_id rest

/-- Source `link_question_and_answer`. -/
def link_question_and_answer (P : Policy) (now : Nat) (cc : List (Int × ChatCtx))
    (chat_id : Int) (m : Msg) (sender_id : Int) : Bool :=
  if !m.affirm then false
  else linkScan now sender_id (context_for_chat P cc chat_id).entries.reverse

/-- Source `warn`: record a strike, then notify unless rate-limited. -/
def warn (P : Policy) (now : Nat) (s : BotState) (chat_id user_id : Int)
    (reason : String) : BotState × List Action :=
  let r0 := (alookup s.STRIKES user_id).getD { count := 0, last := none }
  let s1 := { s with STRIKES := ainsert user_id { count := r0.count + 1, last := some now } s.STRIKES }
  let rl := rate_limited P now s1.LAST_WARN_TIME chat_id user_id
  let s2 := { s1 with LAST_WARN_TIME := rl.2 }
  (s2, if rl.1 then [] else [Action.sendMessage chat_id (Note.warnNote user_id reason)])

/-- Source `ban`: attempt `bot.ban_chat_member`; on success add to `BANNED`
and announce, on failure (the platform call raising) send a failure notice and
leave the state untouched.  The exception is caught inside the function, so it
always returns. -/
def ban (P : Policy) (now : Nat) (s : BotState) (chat_id user_id : Int)
    (permanent : Bool) (seconds : Option Nat) (reason : String)
    (platformOk : Bool) : BotState × List Action :=
  let untilDate : Option Nat :=
    if permanent then none else some (now + pyOr seconds P.tempban_seconds)
  if platformOk then
    ({ s with BANNED := setAdd user_id s.BANNED },
     [Action.banChatMember chat_id user_id untilDate,
      Action.sendMessage chat_id (Note.bannedNote user_id reason)])
  else
    (s, [Action.banChatMember chat_id user_id untilDate,
         Action.sendMessage chat_id (Note.banFailedNote user_id)])

/-- Source `tempban_or_warn`: escalate to a temporary ban when a strike is
within the window and the count is at least one, else warn. -/
def tempban_or_warn (P : Policy) (now : Nat) (s : BotState) (chat_id user_id : Int)
    (reason : String) (platformOk : Bool) : BotState × List Action :=
  let r0 := (alookup s.STRIKES user_id).getD { count := 0, last := none }
  let recent := within r0.last (P.strike_window_days * 86400) now
  if recent && decide (1 ≤ r0.count) then
    ban P now s chat_id user_id false none reason platformOk
  else
    warn P now s chat_id user_id reason

/-- Source `handle_join_confirmation`: open the confirmation window. -/
def handle_join_confirmation (P : Policy) (now : Nat) (s : BotState)
    (chat_id user_id : Int) : BotState × List Action :=
  let deadline := now + P.username_confirm_timeout_s
  ({ s with PENDING_CONFIRM := ainsert user_id deadline s.PENDING_CONFIRM },
   [Action.sendMessage chat_id (Note.confirmPrompt user_id)])

/-- Source `check_confirmation_expiry`, the locked body that runs when the
scheduled timer fires (`now` is the instant the timer runs, after its sleep):
if the pending record is still present and its deadline has passed, remove it
and issue the temporary ban. -/
def check_confirmation_expiry (P : Policy) (now : Nat) (s : BotState)
    (chat_id user_id : Int) (platformOk : Bool) : BotState × List Action :=
  match alookup s.PENDING_CONFIRM user_id with
  | some deadline =>
      if deadline ≤ now then
        ban P now { s with PENDING_CONFIRM := aerase user_id s.PENDING_CONFIRM }
          chat_id user_id false none "No confirmation after join" platformOk
      else (s, [])
  | none => (s, [])

/-- Source `on_message`.  The context append precedes every check.  The
nested `if AFFIRM_RE.search(text)` of the source (lines 268-271) falls
through to the pronoun rule when it fails, which — the guards being pure — is
the single conjoined condition written here; the final `QUESTION_RE` branch
of the source does nothing and so coincides with the default branch. -/
def on_message (P : Policy) (now : Nat) (s : BotState) (chat_id user_id : Int)
    (m : Msg) (platformOk : Bool) : BotState × List Action :=
  let dq := ctxAppend (context_for_chat P s.CHAT_CONTEXT chat_id)
    { ts := now, uid := user_id, msg := m }
  let s1 := { s with CHAT_CONTEXT := ainsert chat_id dq s.CHAT_CONTEXT }
  if is_admin s1 user_id || is_whitelisted s1 user_id then (s1, [])
  else if m.negation && (alookup s1.PENDING_CONFIRM user_id).isSome then
    ({ s1 with PENDING_CONFIRM := aerase user_id s1.PENDING_CONFIRM },
     [Action.sendMessage chat_id (Note.confirmAccepted user_id)])
  else if P.autoban_on_affirm_female
      && link_question_and_answer P now s1.CHAT_CONTEXT chat_id m user_id
      && m.affirm then
    ban P now s1 chat_id user_id true none "Self-identified as female" platformOk
  else if P.warn_then_ban_pronouns && m.pronoun then
    tempban_or_warn P now s1 chat_id user_id
      "Female-identifying content not allowed here" platformOk
  else (s1, [])

/-- Characters Python's `int()` strips from both ends of its argument
(the common ASCII whitespace). -/
def isSpaceChar (c : Char) : Bool :=
  c = ' ' || c = '\t' || c = '\n' || c = '\r'

/-- Value of a decimal digit string, most significant digit first. -/
def digitsToNat (l : List Char) : Nat :=
  l.foldl (fun acc c => acc * 10 + (c.toNat - 48)) 0

/-- Python `int(str)`: optional surrounding whitespace, an optional sign, then
at least one decimal digit (digit-group underscores are not modelled; no claim
depends on them).  Anything else raises `ValueError`.  Modelled over the
character list of the string. -/
def pyInt (str : String) : Except PyErr Int :=
  let t := ((str.data.dropWhile isSpaceChar).reverse.dropWhile isSpaceChar).reverse
  let sgn : Int := if t.head? = some '-' then -1 else 1
  let digits := if t.head? = some '-' ∨ t.head? = some '+' then t.drop 1 else t
  if !digits.isEmpty && digits.all Char.isDigit then
    Except.ok (sgn * Int.ofNat (digitsToNat digits))
  else Except.error PyErr.valueError

/-- Source `cmd_whitelist`.  `int(context.args[0])` is not wrapped in any
handler, so a non-numeric argument escapes as an uncaught `ValueError`. -/
def cmd_whitelist (s : BotState) (caller : Int) (args : List String) :
    Except PyErr (BotState × List Action) :=
  if !is_admin s caller then .ok (s, [])
  else
    match args with
    | [] => .ok (s, [Action.reply (Note.usage "/whitelist <user_id>")])
    | a0 :: _ =>
        match pyInt a0 with
        | .error e => .error e
        | .ok uid =>
            .ok ({ s with WHITELIST := setAdd uid s.WHITELIST },
                 [Action.reply (Note.whitelistedNote uid)])

/-- Source `cmd_unwhitelist`: line 306 is `uid = int(context.args)` — `int()`
applied to the whole argument *list* — which raises `TypeError` whenever the
argument check is passed. -/
def cmd_unwhitelist (s : BotState) (caller : Int) (args : List String) :
    Except PyErr (BotState × List Action) :=
  if !is_admin s caller then .ok (s, [])
  else
    match args with
    | [] => .ok (s, [Action.reply (Note.usage "/unwhitelist <user_id>")])
    | _ :: _ => .error .typeError

/-- Source `cmd_unban`: line 318 is `uid = int(context.args)`, before the
`try` block, so it raises `TypeError` whenever arguments are present. -/
def cmd_unban (s : BotState) (caller : Int) (args : List String) :
    Except PyErr (BotState × List Action) :=
  if !is_admin s caller then .ok (s, [])
  else
    match args with
    | [] => .ok (s, [Action.reply (Note.usage "/unban <user_id>")])
    | _ :: _ => .error .typeError

/-- Source `cmd_setadmin`: line 334 is `uid = int(context.args)`, raising
`TypeError` whenever arguments are present. -/
def cmd_setadmin (s : BotState) (caller : Int) (args : List String) :
    Except PyErr (BotState × List Action) :=
  if !is_admin s caller then .ok (s, [])
  else
    match args with
    | [] => .ok (s, [Action.reply (Note.usage "/setadmin <user_id>")])
    | _ :: _ => .error .typeError

/-- Source `cmd_unsetadmin`: line 346 is `uid = int(context.args)`, raising
`TypeError` whenever arguments are present. -/
def cmd_unsetadmin (s : BotState) (caller : Int) (args : List String) :
    Except PyErr (BotState × List Action) :=
  if !is_admin s caller then .ok (s, [])
  else
    match args with
    | [] => .ok (s, [Action.reply (Note.usage "/unsetadmin <user_id>")])
    | _ :: _ => .error .typeError

/-- Source `cmd_setpolicy`: line 371 binds `key = context.args` (the whole
list, not `context.args[0]`), so line 373's `key not in POLICY` hashes a list
and raises `TypeError` whenever at least two arguments are present. -/
def cmd_setpolicy (s : BotState) (caller : Int) (args : List String) :
    Except PyErr (BotState × List Action) :=
  if !is_admin s caller then .ok (s, [])
  else if args.length < 2 then
    .ok (s, [Action.reply (Note.usage "/setpolicy <key> <value>")])
  else .error .typeError

/-- One message event fed to `on_message`. -/
structure MsgEvent where
  now : Nat
  chat : Int
  user : Int
  msg : Msg
  platformOk : Bool
deriving DecidableEq

/-- Fold `on_message` over a stream of message events. -/
def runMessages (P : Policy) (s : BotState) : List MsgEvent → BotState
  | [] => s
  | e :: rest => runMessages P (on_message P e.now s e.chat e.user e.msg e.platformOk).1 rest

/-- Actions that are platform ban calls. -/
def isBanCall : Action → Bool
  | .banChatMember _ _ _ => true
  | _ => false

/-- Actions that deliver a warning notification into the chat. -/
def isWarnNote : Action → Bool
  | .sendMessage _ (Note.warnNote _ _) => true
  | _ => false

/-- How many warning notifications a list of actions delivers. -/
def deliveredWarns (l : List Action) : Nat :=
  (l.filter isWarnNote).length

/-- The recorded strike count of a user (0 when absent). -/
def strikeCount (s : BotState) (user_id : Int) : Nat :=
  ((alookup s.STRIKES user_id).getD { count := 0, last := none }).count

/-- Actions that resolve a confirmation workflow for `user_id`: the Confirm
notice of the negation path, or the enforcement ban call of the expiry path. -/
def isResolution (user_id : Int) : Action → Bool
  | .banChatMember _ u _ => decide (u = user_id)
  | .sendMessage _ (Note.confirmAccepted u) => decide (u = user_id)
  | _ => false

/-- How many resolution events for `user_id` a list of actions contains. -/
def resCount (user_id : Int) (l : List Action) : Nat :=
  (l.filter (isResolution user_id)).length

/-- Actions that are the Confirm notice for `user_id`. -/
def isConfirmNote (user_id : Int) : Action → Bool
  | .sendMessage _ (Note.confirmAccepted u) => decide (u = user_id)
  | _ => false

/-! ### Concrete sample values used to evaluate the model -/

/-- A message matching none of the classifier patterns. -/
def quietMsg : Msg := { affirm := false, question := false, pronoun := false, negation := false }

/-- Classifier outcome of a text such as "yes i am a girl": only `AFFIRM_RE` matches. -/
def affirmMsg : Msg := { affirm := true, question := false, pronoun := false, negation := false }

/-- Classifier outcome of a text such as "she/her": only `PRONOUN_RE` matches. -/
def pronounMsg : Msg := { affirm := false, question := false, pronoun := true, negation := false }

/-- Classifier outcome of a text such as "I am not female": only
`confirmed_not_female` matches. -/
def negMsg : Msg := { affirm := false, question := false, pronoun := false, negation := true }

/-- Classifier outcome of the text "i am a girl i am not female":
`AFFIRM_RE` matches ("i am a girl") and `confirmed_not_female` matches
("i am not female"), so the message is tagged Affirmation and Negation at once. -/
def bothMsg : Msg := { affirm := true, question := false, pronoun := false, negation := true }

/-- State in which user 7 holds exactly one strike, recorded at t = 999000. -/
def oneStrikeState : BotState :=
  { initialState with STRIKES := [(7, { count := 1, last := some 999000 })] }

/-- State in which user 5 has a pending confirmation with deadline 200. -/
def pendingState : BotState :=
  { initialState with PENDING_CONFIRM := [(5, 200)] }

/-- State in which the admin user 123456789 has a pending confirmation with
deadline 200 (opened before the user became exempt). -/
def adminPendingState : BotState :=
  { initialState with PENDING_CONFIRM := [(123456789, 200)] }

/-- Two quiet messages in chat 1 at times 100 and 150. -/
def sampleEvents : List MsgEvent :=
  [ { now := 100, chat := 1, user := 5, msg := quietMsg, platformOk := true },
    { now := 150, chat := 1, user := 6, msg := quietMsg, platformOk := true } ]

/-- The context window chat 1 holds after `sampleEvents`. -/
def sampleWindow : ChatCtx :=
  { maxlen := 30,
    entries := [ { ts := 100, uid := 5, msg := quietMsg },
                 { ts := 150, uid := 6, msg := quietMsg } ] }

/-- A full one-slot window, used to exhibit eviction. -/
def sampleOldWindow : ChatCtx :=
  { maxlen := 1, entries := [ { ts := 1, uid := 5, msg := quietMsg } ] }

/-- An entry appended to `sampleOldWindow`. -/
def sampleEntry : CtxEntry := { ts := 2, uid := 6, msg := quietMsg }

/-- Well-formedness of one chat's context window at time bound `bound`:
its capacity is the policy's `context_window_messages`, its size is within
capacity, its timestamps are non-decreasing, and no entry is dated after
`bound`. -/
def ctxGood (cap bound : Nat) (dq : ChatCtx) : Prop :=
  dq.maxlen = cap ∧ dq.entries.length ≤ dq.maxlen ∧
  List.Chain' (fun a b : CtxEntry => a.ts ≤ b.ts) dq.entries ∧
  ∀ e ∈ dq.entries, e.ts ≤ bound

/-- Every context window of the state is well-formed at `bound`. -/
def ctxInv (P : Policy) (bound : Nat) (s : BotState) : Prop :=
  ∀ chat dq, alookup s.CHAT_CONTEXT chat = some dq →
    ctxGood P.context_window_messages bound dq

/-! ### Association-list lemmas -/

theorem aerase_cons {α β : Type} [DecidableEq α] (a : α) (p : α × β) (rest : List (α × β)) :
    aerase a (p :: rest) = if p.1 = a then aerase a rest else p :: aerase a rest := by
  by_cases h : p.1 = a <;> simp [aerase, List.filter_cons, h]

theorem alookup_ainsert_self {α β : Type} [DecidableEq α] (a : α) (b : β) (l : List (α × β)) :
    alookup (ainsert a b l) a = some b := by
  simp [ainsert, alookup]

theorem alookup_aerase_self {α β : Type} [DecidableEq α] (a : α) (l : List (α × β)) :
    alookup (aerase a l) a = none := by
  induction l with
  | nil => rfl
  | cons p rest ih =>
      rw [aerase_cons]
      by_cases h : p.1 = a
      · simpa [h] using ih
      · simpa [alookup, h] using ih

theorem alookup_aerase_ne {α β : Type} [DecidableEq α] {a a' : α} (l : List (α × β))
    (h : a' ≠ a) : alookup (aerase a l) a' = alookup l a' := by
  induction l with
  | nil => rfl
  | cons p rest ih =>
      rw [aerase_cons]
      by_cases hp : p.1 = a
      · rw [if_pos hp, ih]
        have hne : p.1 ≠ a' := by rw [hp]; exact fun hh => h hh.symm
        simp [alookup, hne]
      · rw [if_neg hp]
        by_cases hq : p.1 = a' <;> simp [alookup, hq, ih]

theorem alookup_ainsert_ne {α β : Type} [DecidableEq α] {a a' : α} (b : β)
    (l : List (α × β)) (h : a' ≠ a) : alookup (ainsert a b l) a' = alookup l a' := by
  have hne : a ≠ a' := fun hh => h hh.symm
  simp [ainsert, alookup, hne, alookup_aerase_ne l h]

/-! ### Behaviour of the lookback scan -/

/-- Every branch of the source's lookback loop ends in `return True`
(break at line 126 falls to line 136; both question branches return `True`). -/
theorem linkScan_eq_true (now : Nat) (sender_id : Int) (l : List CtxEntry) :
    linkScan now sender_id l = true := by
  induction l with
  | nil => rfl
  | cons e rest ih =>
      rw [linkScan]
      split_ifs <;> simp [ih]

/-- The context-link predicate coincides with the affirmation test: the scan
over the Context Ledger has no veto power. -/
theorem link_eq_affirm (P : Policy) (now : Nat) (cc : List (Int × ChatCtx))
    (chat_id : Int) (m : Msg) (sender_id : Int) :
    link_question_and_answer P now cc chat_id m sender_id = m.affirm := by
  cases haff : m.affirm <;>
    simp [link_question_and_answer, haff, linkScan_eq_true]

/-! ### Frame lemmas: which handler touches which ledger -/

theorem warn_CHAT_CONTEXT (P : Policy) (now : Nat) (s : BotState)
    (chat_id user_id : Int) (reason : String) :
    (warn P now s chat_id user_id reason).1.CHAT_CONTEXT = s.CHAT_CONTEXT := rfl

theorem ban_CHAT_CONTEXT (P : Policy) (now : Nat) (s : BotState) (chat_id user_id : Int)
    (permanent : Bool) (seconds : Option Nat) (reason : String) (platformOk : Bool) :
    (ban P now s chat_id user_id permanent seconds reason platformOk).1.CHAT_CONTEXT
      = s.CHAT_CONTEXT := by
  cases platformOk <;> rfl

theorem tempban_or_warn_CHAT_CONTEXT (P : Policy) (now : Nat) (s : BotState)
    (chat_id user_id : Int) (reason : String) (platformOk : Bool) :
    (tempban_or_warn P now s chat_id user_id reason platformOk).1.CHAT_CONTEXT
      = s.CHAT_CONTEXT := by
  simp only [tempban_or_warn]
  split
  · apply ban_CHAT_CONTEXT
  · apply warn_CHAT_CONTEXT

theorem on_message_CHAT_CONTEXT (P : Policy) (now : Nat) (s : BotState)
    (chat_id user_id : Int) (m : Msg) (platformOk : Bool) :
    (on_message P now s chat_id user_id m platformOk).1.CHAT_CONTEXT
      = ainsert chat_id
          (ctxAppend (context_for_chat P s.CHAT_CONTEXT chat_id)
            { ts := now, uid := user_id, msg := m })
          s.CHAT_CONTEXT := by
  simp only [on_message]
  split
  · rfl
  split
  · rfl
  split
  · apply ban_CHAT_CONTEXT
  split
  · apply tempban_or_warn_CHAT_CONTEXT
  · rfl

/-! ### Claim theorems -/

/-- C9: when the platform's `ban_chat_member` call raises, the exception is
caught inside `ban`: the state (`BANNED` included) is unchanged, exactly one
ban call was attempted (no retry), a visible failure notice is sent to the
chat, and `ban` returns normally; the user joins `BANNED` only when the
platform call succeeds. -/
theorem C9_ban_failure_contained (P : Policy) (now : Nat) (s : BotState)
    (chat_id user_id : Int) (permanent : Bool) (seconds : Option Nat) (reason : String) :
    (ban P now s chat_id user_id permanent seconds reason false).1 = s
  ∧ (ban P now s chat_id user_id permanent seconds reason false).2 =
      [Action.banChatMember chat_id user_id
         (if permanent then none else some (now + pyOr seconds P.tempban_seconds)),
       Action.sendMessage chat_id (Note.banFailedNote user_id)]
  ∧ ((ban P now s chat_id user_id permanent seconds reason false).2.filter isBanCall).length = 1
  ∧ (ban P now s chat_id user_id permanent seconds reason true).1.BANNED
      = setAdd user_id s.BANNED := by
  refine ⟨rfl, rfl, ?_, rfl⟩
  simp [ban, isBanCall, List.filter_cons]

/-- C7: a message from an admin or whitelisted author produces no action at
all — in particular no Warn, TemporaryBan or PermanentBan — and records no
strike; only the chat's context window is extended. -/
theorem C7_exempt_author_no_enforcement (P : Policy) (now : Nat) (s : BotState)
    (chat_id user_id : Int) (m : Msg) (platformOk : Bool)
    (h : is_admin s user_id = true ∨ is_whitelisted s user_id = true) :
    (on_message P now s chat_id user_id m platformOk).2 = []
  ∧ (on_message P now s chat_id user_id m platformOk).1.STRIKES = s.STRIKES
  ∧ (on_message P now s chat_id user_id m platformOk).1.BANNED = s.BANNED
  ∧ (on_message P now s chat_id user_id m platformOk).1.PENDING_CONFIRM
      = s.PENDING_CONFIRM := by
  rcases h with h | h <;>
    · simp only [is_admin, is_whitelisted] at h
      simp [on_message, is_admin, is_whitelisted, h]

/-- C7 witness: the admin 123456789 sends a pronoun-tagged message and
nothing happens. -/
theorem C7_witness :
    (is_admin initialState 123456789 = true ∨ is_whitelisted initialState 123456789 = true)
  ∧ ((on_message defaultPolicy 50 initialState 1 123456789 pronounMsg true).2 = []
     ∧ (on_message defaultPolicy 50 initialState 1 123456789 pronounMsg true).1.STRIKES
         = initialState.STRIKES
     ∧ (on_message defaultPolicy 50 initialState 1 123456789 pronounMsg true).1.BANNED
         = initialState.BANNED
     ∧ (on_message defaultPolicy 50 initialState 1 123456789 pronounMsg true).1.PENDING_CONFIRM
         = initialState.PENDING_CONFIRM) :=
  ⟨Or.inl (by decide),
   C7_exempt_author_no_enforcement defaultPolicy 50 initialState 1 123456789 pronounMsg true
     (Or.inl (by decide))⟩

/-- C1: for a non-exempt sender whose message is tagged Affirmation, with the
`autoban_on_affirm_female` policy on and the message not clearing a pending
confirmation, the context-link predicate is true for *every* possible context
ledger (the lookback scan has no veto power), and `on_message` issues the
permanent ban (`until_date = None`) announced with reason
"Self-identified as female" — the source's rendering of "self-identified". -/
theorem C1_affirmation_always_banned (P : Policy) (s : BotState) (chat_id user_id : Int)
    (now : Nat) (m : Msg) (platformOk : Bool) (cc : List (Int × ChatCtx))
    (hpol : P.autoban_on_affirm_female = true)
    (haff : m.affirm = true)
    (hadm : is_admin s user_id = false)
    (hwl : is_whitelisted s user_id = false)
    (hnoclear : m.negation = false ∨ alookup s.PENDING_CONFIRM user_id = none) :
    link_question_and_answer P now cc chat_id m user_id = true
  ∧ Action.banChatMember chat_id user_id none
      ∈ (on_message P now s chat_id user_id m platformOk).2
  ∧ Action.sendMessage chat_id
      (if platformOk then Note.bannedNote user_id "Self-identified as female"
       else Note.banFailedNote user_id)
      ∈ (on_message P now s chat_id user_id m platformOk).2 := by
  refine ⟨by rw [link_eq_affirm, haff], ?_⟩
  have hcond2 : (m.negation && (alookup s.PENDING_CONFIRM user_id).isSome) = false := by
    rcases hnoclear with h | h <;> simp [h]
  simp only [is_admin, is_whitelisted] at hadm hwl
  simp only [on_message, is_admin, is_whitelisted, link_eq_affirm, hadm, hwl, haff, hpol,
    hcond2, Bool.false_or, Bool.or_false, Bool.and_true, Bool.true_and, if_false,
    Bool.false_eq_true, if_true]
  cases platformOk <;> simp [ban]

/-- C1 witness: user 5 sends an affirmation in chat 1 of the initial state. -/
theorem C1_witness :
    (defaultPolicy.autoban_on_affirm_female = true
     ∧ affirmMsg.affirm = true
     ∧ is_admin initialState 5 = false
     ∧ is_whitelisted initialState 5 = false
     ∧ (affirmMsg.negation = false ∨ alookup initialState.PENDING_CONFIRM 5 = none))
  ∧ (link_question_and_answer defaultPolicy 300 [] 1 affirmMsg 5 = true
     ∧ Action.banChatMember 1 5 none ∈ (on_message defaultPolicy 300 initialState 1 5 affirmMsg true).2
     ∧ Action.sendMessage 1
         (if true then Note.bannedNote 5 "Self-identified as female" else Note.banFailedNote 5)
         ∈ (on_message defaultPolicy 300 initialState 1 5 affirmMsg true).2) :=
  ⟨⟨rfl, rfl, by decide, by decide, Or.inl rfl⟩,
   C1_affirmation_always_banned defaultPolicy initialState 1 5 300 affirmMsg true []
     rfl rfl (by decide) (by decide) (Or.inl rfl)⟩

/-- C5: the admin commands do not reject malformed arguments with a usage or
error message — they raise uncaught Python exceptions.  An admin calling
`/whitelist abc` hits an unguarded `int("abc")` (`ValueError`); the other
user-id commands call `int(context.args)` on the whole argument list and
`/setpolicy` hashes the argument list as a dict key, so they raise
`TypeError` even on well-formed numeric input.  No state is mutated, but the
spec's promised synchronous usage/error reply never happens. -/
theorem C5_malformed_admin_commands_raise :
    cmd_whitelist initialState 123456789 ["abc"] = Except.error PyErr.valueError
  ∧ cmd_unwhitelist initialState 123456789 ["42"] = Except.error PyErr.typeError
  ∧ cmd_unban initialState 123456789 ["42"] = Except.error PyErr.typeError
  ∧ cmd_setadmin initialState 123456789 ["42"] = Except.error PyErr.typeError
  ∧ cmd_unsetadmin initialState 123456789 ["42"] = Except.error PyErr.typeError
  ∧ cmd_setpolicy initialState 123456789 ["tempban_seconds", "60"] = Except.error PyErr.typeError := by
  refine ⟨?_, ?_, ?_, ?_, ?_, ?_⟩ <;> rfl

/-- C10: once a user with an open confirmation becomes admin (here: the
pending record belongs to an admin), their own negation message no longer
clears the record — `on_message` returns at the exemption check — while the
expiry timer, which consults neither role set, still removes the record and
emits the temporary ban against the exempt user. -/
theorem C10_exemption_blocks_negation_not_timer (P : Policy) (s : BotState)
    (chat_id user_id : Int) (now t d : Nat) (m : Msg) (ok1 ok2 : Bool)
    (hex : is_admin s user_id = true ∨ is_whitelisted s user_id = true)
    (hneg : m.negation = true)
    (hpend : alookup s.PENDING_CONFIRM user_id = some d)
    (ht : d ≤ t) :
    (on_message P now s chat_id user_id m ok1).2 = []
  ∧ alookup (on_message P now s chat_id user_id m ok1).1.PENDING_CONFIRM user_id = some d
  ∧ Action.banChatMember chat_id user_id (some (t + P.tempban_seconds))
      ∈ (check_confirmation_expiry P t s chat_id user_id ok2).2
  ∧ alookup (check_confirmation_expiry P t s chat_id user_id ok2).1.PENDING_CONFIRM user_id
      = none := by
  refine ⟨?_, ?_, ?_, ?_⟩
  · rcases hex with h | h <;>
      · simp only [is_admin, is_whitelisted] at h
        simp [on_message, is_admin, is_whitelisted, h]
  · rcases hex with h | h <;>
      · simp only [is_admin, is_whitelisted] at h
        simp [on_message, is_admin, is_whitelisted, h, hpend]
  · simp only [check_confirmation_expiry, hpend]
    rw [if_pos ht]
    cases ok2 <;> simp [ban, pyOr]
  · simp only [check_confirmation_expiry, hpend]
    rw [if_pos ht]
    cases ok2 <;> simp [ban, alookup_aerase_self]

/-- C10 witness: admin 123456789 has a pending confirmation with deadline
200; their negation message at t = 150 does not clear it and the timer at
t = 200 bans them. -/
theorem C10_witness :
    ((is_admin adminPendingState 123456789 = true
      ∨ is_whitelisted adminPendingState 123456789 = true)
     ∧ negMsg.negation = true
     ∧ alookup adminPendingState.PENDING_CONFIRM 123456789 = some 200
     ∧ 200 ≤ 200)
  ∧ ((on_message defaultPolicy 150 adminPendingState 1 123456789 negMsg true).2 = []
     ∧ alookup (on_message defaultPolicy 150 adminPendingState 1 123456789 negMsg true).1.PENDING_CONFIRM
         123456789 = some 200
     ∧ Action.banChatMember 1 123456789 (some (200 + defaultPolicy.tempban_seconds))
         ∈ (check_confirmation_expiry defaultPolicy 200 adminPendingState 1 123456789 true).2
     ∧ alookup (check_confirmation_expiry defaultPolicy 200 adminPendingState 1 123456789 true).1.PENDING_CONFIRM
         123456789 = none) :=
  ⟨⟨Or.inl (by decide), rfl, by decide, by decide⟩,
   C10_exemption_blocks_negation_not_timer defaultPolicy adminPendingState 1 123456789 150 200 200
     negMsg true true (Or.inl (by decide)) rfl (by decide) (by decide)⟩

/-- C2 counterexample: user 7 holds exactly one strike (recorded 1000 s ago,
within the 7-day window) and sends a pronoun-tagged message at t = 1000000.
The claim says this yields a Warn and a recorded strike; instead no warning
is delivered, a TemporaryBan (24 h, until 1086400) is issued, and the strike
count stays 1. -/
theorem C2_counterexample :
    deliveredWarns (on_message defaultPolicy 1000000 oneStrikeState 1 7 pronounMsg true).2 = 0
  ∧ Action.banChatMember 1 7 (some 1086400)
      ∈ (on_message defaultPolicy 1000000 oneStrikeState 1 7 pronounMsg true).2
  ∧ strikeCount (on_message defaultPolicy 1000000 oneStrikeState 1 7 pronounMsg true).1 7 = 1 := by
  refine ⟨by decide, by decide, by decide⟩

/-- C2 amended: a user with exactly one strike is escalated exactly when that
strike lies within the strike window: then the pronoun rule issues a
TemporaryBan (until `now + tempban_seconds`) and records no new strike;
only when the single strike is outside the window does the user get the Warn
treatment (strike count becomes 2, no ban call). -/
theorem C2_amended_one_recent_strike_escalates (P : Policy) (now : Nat) (s : BotState)
    (chat_id user_id : Int) (reason : String) (platformOk : Bool) (t : Nat)
    (hrec : alookup s.STRIKES user_id = some { count := 1, last := some t }) :
    (tempban_or_warn P now s chat_id user_id reason platformOk).2.filter isBanCall
      = (if within (some t) (P.strike_window_days * 86400) now
         then [Action.banChatMember chat_id user_id (some (now + P.tempban_seconds))]
         else [])
  ∧ strikeCount (tempban_or_warn P now s chat_id user_id reason platformOk).1 user_id
      = (if within (some t) (P.strike_window_days * 86400) now then 1 else 2) := by
  simp only [tempban_or_warn, hrec, Option.getD_some]
  cases hw : within (some t) (P.strike_window_days * 86400) now
  · simp only [hw, Bool.false_and, Bool.false_eq_true, if_false]
    refine ⟨?_, ?_⟩
    · simp only [warn]
      split <;> simp [isBanCall, List.filter_cons]
    · simp [warn, strikeCount, hrec, alookup_ainsert_self]
  · cases platformOk <;>
      simp [hw, ban, isBanCall, strikeCount, hrec, pyOr, List.filter_cons]

/-- C2 witness for the amended claim: the state of the counterexample, where
the single strike is within the window. -/
theorem C2_amended_witness :
    (alookup oneStrikeState.STRIKES 7 = some { count := 1, last := some 999000 })
  ∧ ((tempban_or_warn defaultPolicy 1000000 oneStrikeState 1 7 "r" true).2.filter isBanCall
      = (if within (some 999000) (defaultPolicy.strike_window_days * 86400) 1000000
         then [Action.banChatMember 1 7 (some (1000000 + defaultPolicy.tempban_seconds))]
         else [])
     ∧ strikeCount (tempban_or_warn defaultPolicy 1000000 oneStrikeState 1 7 "r" true).1 7
        = (if within (some 999000) (defaultPolicy.strike_window_days * 86400) 1000000
           then 1 else 2)) :=
  ⟨by decide,
   C2_amended_one_recent_strike_escalates defaultPolicy 1000000 oneStrikeState 1 7 "r" true
     999000 (by decide)⟩

/-- C4 counterexample: the text "i am a girl i am not female" is tagged both
Affirmation and Negation (`bothMsg`).  Sent by the non-exempt user 5, who has
no pending confirmation, it DOES trigger the rule-3 PermanentBan — negation
does not take precedence for such a message. -/
theorem C4_counterexample :
    Action.banChatMember 1 5 none
      ∈ (on_message defaultPolicy 1000 initialState 1 5 bothMsg true).2 := by
  decide

/-- C4 amended: for a message tagged both Affirmation and Negation from a
non-exempt sender with `autoban_on_affirm_female` on, negation takes
precedence exactly when the sender has an active PendingConfirmation (then
the record is cleared, the Confirm notice is emitted and no ban call is
made); without a pending record the rule-3 PermanentBan fires. -/
theorem C4_amended_negation_precedence_requires_pending (P : Policy) (s : BotState)
    (chat_id user_id : Int) (now : Nat) (m : Msg) (platformOk : Bool)
    (hneg : m.negation = true) (haff : m.affirm = true)
    (hadm : is_admin s user_id = false) (hwl : is_whitelisted s user_id = false)
    (hpol : P.autoban_on_affirm_female = true) :
    (on_message P now s chat_id user_id m platformOk).2.filter isBanCall
      = (if (alookup s.PENDING_CONFIRM user_id).isSome then []
         else [Action.banChatMember chat_id user_id none])
  ∧ (on_message P now s chat_id user_id m platformOk).2.filter (isConfirmNote user_id)
      = (if (alookup s.PENDING_CONFIRM user_id).isSome then
           [Action.sendMessage chat_id (Note.confirmAccepted user_id)]
         else [])
  ∧ alookup (on_message P now s chat_id user_id m platformOk).1.PENDING_CONFIRM user_id
      = none := by
  simp only [is_admin, is_whitelisted] at hadm hwl
  rcases hp : alookup s.PENDING_CONFIRM user_id with _ | d
  · simp only [on_message, is_admin, is_whitelisted, link_eq_affirm, hadm, hwl, haff, hneg,
      hpol, hp, Option.isSome_none, Bool.and_false, Bool.false_eq_true, if_false,
      Bool.or_self, Bool.and_self, Bool.true_and, Bool.and_true, if_true]
    cases platformOk <;>
      simp [ban, isBanCall, isConfirmNote, List.filter_cons, hp]
  · simp [on_message, is_admin, is_whitelisted, hadm, hwl, hneg, hp, isBanCall,
      isConfirmNote, List.filter_cons, alookup_aerase_self]

/-- C4 witness for the amended claim: user 5 has a pending confirmation, so
the both-tagged message clears it and no ban call is made. -/
theorem C4_amended_witness :
    (bothMsg.negation = true ∧ bothMsg.affirm = true
     ∧ is_admin pendingState 5 = false ∧ is_whitelisted pendingState 5 = false
     ∧ defaultPolicy.autoban_on_affirm_female = true)
  ∧ ((on_message defaultPolicy 100 pendingState 1 5 bothMsg true).2.filter isBanCall
      = (if (alookup pendingState.PENDING_CONFIRM 5).isSome then []
         else [Action.banChatMember 1 5 none])
     ∧ (on_message defaultPolicy 100 pendingState 1 5 bothMsg true).2.filter (isConfirmNote 5)
        = (if (alookup pendingState.PENDING_CONFIRM 5).isSome then
             [Action.sendMessage 1 (Note.confirmAccepted 5)]
           else [])
     ∧ alookup (on_message defaultPolicy 100 pendingState 1 5 bothMsg true).1.PENDING_CONFIRM 5
        = none) :=
  ⟨⟨rfl, rfl, by decide, by decide, rfl⟩,
   C4_amended_negation_precedence_requires_pending defaultPolicy pendingState 1 5 100 bothMsg
     true rfl rfl (by decide) (by decide) rfl⟩

/-- C8: two warn calls for the same (chat, user) less than
`rate_limit_warn_s` apart deliver at most one warning notification — the
rate-limit ledger suppresses the duplicate — while both strikes are still
recorded. -/
theorem C8_second_warning_suppressed (P : Policy) (s : BotState) (chat_id user_id : Int)
    (t1 t2 : Nat) (r1 r2 : String)
    (h12 : t1 ≤ t2) (hlt : t2 - t1 < P.rate_limit_warn_s) :
    deliveredWarns ((warn P t1 s chat_id user_id r1).2
        ++ (warn P t2 (warn P t1 s chat_id user_id r1).1 chat_id user_id r2).2) ≤ 1
  ∧ strikeCount (warn P t2 (warn P t1 s chat_id user_id r1).1 chat_id user_id r2).1 user_id
      = strikeCount s user_id + 2 := by
  constructor
  · have e1 : (warn P t1 s chat_id user_id r1).2
        = (if (rate_limited P t1 s.LAST_WARN_TIME chat_id user_id).1 then ([] : List Action)
           else [Action.sendMessage chat_id (Note.warnNote user_id r1)]) := rfl
    have e1' : (warn P t1 s chat_id user_id r1).1.LAST_WARN_TIME
        = (rate_limited P t1 s.LAST_WARN_TIME chat_id user_id).2 := rfl
    have e2 : (warn P t2 (warn P t1 s chat_id user_id r1).1 chat_id user_id r2).2
        = (if (rate_limited P t2 (warn P t1 s chat_id user_id r1).1.LAST_WARN_TIME
                 chat_id user_id).1 then ([] : List Action)
           else [Action.sendMessage chat_id (Note.warnNote user_id r2)]) := rfl
    rw [e1, e2, e1']
    rcases hfst : alookup s.LAST_WARN_TIME (chat_id, user_id) with _ | last
    · have hr1 : rate_limited P t1 s.LAST_WARN_TIME chat_id user_id
          = (false, ainsert (chat_id, user_id) t1 s.LAST_WARN_TIME) := by
        simp [rate_limited, hfst]
      have hr2 : rate_limited P t2 (ainsert (chat_id, user_id) t1 s.LAST_WARN_TIME)
            chat_id user_id
          = (true, ainsert (chat_id, user_id) t1 s.LAST_WARN_TIME) := by
        simp [rate_limited, alookup_ainsert_self, hlt]
      rw [hr1, hr2]
      simp [deliveredWarns, isWarnNote, List.filter_cons]
    · by_cases hc : t1 - last < P.rate_limit_warn_s
      · have hr1 : rate_limited P t1 s.LAST_WARN_TIME chat_id user_id
            = (true, s.LAST_WARN_TIME) := by
          simp [rate_limited, hfst, hc]
        rw [hr1]
        cases (rate_limited P t2 s.LAST_WARN_TIME chat_id user_id).1 <;>
          simp [deliveredWarns, isWarnNote, List.filter_cons]
      · have hr1 : rate_limited P t1 s.LAST_WARN_TIME chat_id user_id
            = (false, ainsert (chat_id, user_id) t1 s.LAST_WARN_TIME) := by
          simp [rate_limited, hfst, hc]
        have hr2 : rate_limited P t2 (ainsert (chat_id, user_id) t1 s.LAST_WARN_TIME)
              chat_id user_id
            = (true, ainsert (chat_id, user_id) t1 s.LAST_WARN_TIME) := by
          simp [rate_limited, alookup_ainsert_self, hlt]
        rw [hr1, hr2]
        simp [deliveredWarns, isWarnNote, List.filter_cons]
  · have f1 : (warn P t1 s chat_id user_id r1).1.STRIKES
        = ainsert user_id { count := strikeCount s user_id + 1, last := some t1 } s.STRIKES := rfl
    have f2 : (warn P t2 (warn P t1 s chat_id user_id r1).1 chat_id user_id r2).1.STRIKES
        = ainsert user_id
            { count := strikeCount (warn P t1 s chat_id user_id r1).1 user_id + 1,
              last := some t2 }
            (warn P t1 s chat_id user_id r1).1.STRIKES := rfl
    have g1 : strikeCount (warn P t1 s chat_id user_id r1).1 user_id
        = strikeCount s user_id + 1 := by
      simp [strikeCount, f1, alookup_ainsert_self]
    have g2 : strikeCount (warn P t2 (warn P t1 s chat_id user_id r1).1 chat_id user_id r2).1
          user_id
        = strikeCount (warn P t1 s chat_id user_id r1).1 user_id + 1 := by
      simp [strikeCount, f2, alookup_ainsert_self]
    rw [g2, g1]

/-- C8 witness: two warns 5 s apart in the initial state. -/
theorem C8_witness :
    ((100 : Nat) ≤ 105 ∧ 105 - 100 < defaultPolicy.rate_limit_warn_s)
  ∧ (deliveredWarns ((warn defaultPolicy 100 initialState 1 7 "a").2
        ++ (warn defaultPolicy 105 (warn defaultPolicy 100 initialState 1 7 "a").1 1 7 "b").2) ≤ 1
     ∧ strikeCount (warn defaultPolicy 105 (warn defaultPolicy 100 initialState 1 7 "a").1
          1 7 "b").1 7 = strikeCount initialState 7 + 2) :=
  ⟨⟨by decide, by decide⟩,
   C8_second_warning_suppressed defaultPolicy initialState 1 7 100 105 "a" "b"
     (by decide) (by decide)⟩

/-- C3: a pending confirmation resolves exactly once.  Both the negation path
of `on_message` and the expiry path of `check_confirmation_expiry` run their
check-and-remove under `STATE_LOCK`, so a concurrent schedule is one of the
two orders of these atomic steps.  In either order exactly one resolution
action (the Confirm notice or the enforcement ban call) is emitted for the
user, the loser observes the record gone and enforces nothing, and the
pending record ends removed.  The negation message here carries only the
Negation tag (e.g. "I am not female", which matches no other pattern). -/
theorem C3_confirmation_resolved_exactly_once (P : Policy) (s : BotState)
    (chat_id user_id : Int) (d t1 t2 : Nat) (m : Msg) (ok1 ok2 : Bool)
    (hpend : alookup s.PENDING_CONFIRM user_id = some d)
    (hneg : m.negation = true) (haff : m.affirm = false) (hpro : m.pronoun = false)
    (hadm : is_admin s user_id = false) (hwl : is_whitelisted s user_id = false)
    (ht : d ≤ t2) :
    resCount user_id ((on_message P t1 s chat_id user_id m ok1).2
        ++ (check_confirmation_expiry P t2 (on_message P t1 s chat_id user_id m ok1).1
              chat_id user_id ok2).2) = 1
  ∧ alookup (check_confirmation_expiry P t2 (on_message P t1 s chat_id user_id m ok1).1
        chat_id user_id ok2).1.PENDING_CONFIRM user_id = none
  ∧ resCount user_id ((check_confirmation_expiry P t2 s chat_id user_id ok1).2
        ++ (on_message P t1 (check_confirmation_expiry P t2 s chat_id user_id ok1).1
              chat_id user_id m ok2).2) = 1
  ∧ alookup (on_message P t1 (check_confirmation_expiry P t2 s chat_id user_id ok1).1
        chat_id user_id m ok2).1.PENDING_CONFIRM user_id = none := by
  have hadm' := hadm
  have hwl' := hwl
  simp only [is_admin, is_whitelisted] at hadm' hwl'
  -- Order A: the negation message wins, the timer is a no-op.
  have hA2 : (on_message P t1 s chat_id user_id m ok1).2
      = [Action.sendMessage chat_id (Note.confirmAccepted user_id)] := by
    simp [on_message, is_admin, is_whitelisted, hadm', hwl', hneg, hpend]
  have hA1 : (on_message P t1 s chat_id user_id m ok1).1.PENDING_CONFIRM
      = aerase user_id s.PENDING_CONFIRM := by
    simp [on_message, is_admin, is_whitelisted, hadm', hwl', hneg, hpend]
  have hAtimer : check_confirmation_expiry P t2 (on_message P t1 s chat_id user_id m ok1).1
        chat_id user_id ok2
      = ((on_message P t1 s chat_id user_id m ok1).1, []) := by
    simp only [check_confirmation_expiry, hA1, alookup_aerase_self]
  -- Order B: the timer wins, the negation message falls through silently.
  have hB1 : (check_confirmation_expiry P t2 s chat_id user_id ok1).1.PENDING_CONFIRM
      = aerase user_id s.PENDING_CONFIRM := by
    simp only [check_confirmation_expiry, hpend]
    rw [if_pos ht]
    cases ok1 <;> rfl
  have hBadm : (check_confirmation_expiry P t2 s chat_id user_id ok1).1.ADMIN_IDS
      = s.ADMIN_IDS := by
    simp only [check_confirmation_expiry, hpend]
    rw [if_pos ht]
    cases ok1 <;> rfl
  have hBwl : (check_confirmation_expiry P t2 s chat_id user_id ok1).1.WHITELIST
      = s.WHITELIST := by
    simp only [check_confirmation_expiry, hpend]
    rw [if_pos ht]
    cases ok1 <;> rfl
  have hBres : resCount user_id (check_confirmation_expiry P t2 s chat_id user_id ok1).2 = 1 := by
    simp only [check_confirmation_expiry, hpend]
    rw [if_pos ht]
    cases ok1 <;> simp [ban, resCount, isResolution, List.filter_cons]
  have hBmsg2 : (on_message P t1 (check_confirmation_expiry P t2 s chat_id user_id ok1).1
        chat_id user_id m ok2).2 = [] := by
    simp [on_message, is_admin, is_whitelisted, hBadm, hBwl, hB1, hadm', hwl',
      link_eq_affirm, haff, hpro, alookup_aerase_self]
  have hBmsg1 : (on_message P t1 (check_confirmation_expiry P t2 s chat_id user_id ok1).1
        chat_id user_id m ok2).1.PENDING_CONFIRM
      = aerase user_id s.PENDING_CONFIRM := by
    simp [on_message, is_admin, is_whitelisted, hBadm, hBwl, hB1, hadm', hwl',
      link_eq_affirm, haff, hpro, alookup_aerase_self]
  refine ⟨?_, ?_, ?_, ?_⟩
  · rw [hA2, hAtimer]
    simp [resCount, isResolution, List.filter_cons]
  · rw [hAtimer]
    simp [hA1, alookup_aerase_self]
  · rw [hBmsg2]
    simpa using hBres
  · rw [hBmsg1]
    exact alookup_aerase_self user_id s.PENDING_CONFIRM

/-- C3 witness: user 5's pending confirmation (deadline 200) against a pure
negation message at t = 100 and the timer at t = 250, in both orders. -/
theorem C3_witness :
    (alookup pendingState.PENDING_CONFIRM 5 = some 200
     ∧ negMsg.negation = true ∧ negMsg.affirm = false ∧ negMsg.pronoun = false
     ∧ is_admin pendingState 5 = false ∧ is_whitelisted pendingState 5 = false
     ∧ (200 : Nat) ≤ 250)
  ∧ (resCount 5 ((on_message defaultPolicy 100 pendingState 1 5 negMsg true).2
        ++ (check_confirmation_expiry defaultPolicy 250
              (on_message defaultPolicy 100 pendingState 1 5 negMsg true).1 1 5 true).2) = 1
     ∧ alookup (check_confirmation_expiry defaultPolicy 250
          (on_message defaultPolicy 100 pendingState 1 5 negMsg true).1
          1 5 true).1.PENDING_CONFIRM 5 = none
     ∧ resCount 5 ((check_confirmation_expiry defaultPolicy 250 pendingState 1 5 true).2
        ++ (on_message defaultPolicy 100
              (check_confirmation_expiry defaultPolicy 250 pendingState 1 5 true).1
              1 5 negMsg true).2) = 1
     ∧ alookup (on_message defaultPolicy 100
          (check_confirmation_expiry defaultPolicy 250 pendingState 1 5 true).1
          1 5 negMsg true).1.PENDING_CONFIRM 5 = none) :=
  ⟨⟨by decide, rfl, rfl, rfl, by decide, by decide, by decide⟩,
   C3_confirmation_resolved_exactly_once defaultPolicy pendingState 1 5 200 100 250 negMsg
     true true (by decide) rfl rfl rfl (by decide) (by decide) (by decide)⟩

/-! ### Context-window invariant machinery (claim C6) -/

theorem ctxGood_mono {cap b b2 : Nat} {dq : ChatCtx} (h : ctxGood cap b dq) (hb : b ≤ b2) :
    ctxGood cap b2 dq :=
  ⟨h.1, h.2.1, h.2.2.1, fun e he => le_trans (h.2.2.2 e he) hb⟩

theorem ctxGood_append {cap b now : Nat} {dq : ChatCtx} {e : CtxEntry}
    (h : ctxGood cap b dq) (hb : b ≤ now) (he : e.ts = now) :
    ctxGood cap now (ctxAppend dq e) := by
  obtain ⟨hcap, hlen, hchain, hbound⟩ := h
  refine ⟨hcap, ?_, ?_, ?_⟩
  · simp only [ctxAppend, List.length_drop, List.length_append, List.length_singleton]
    omega
  · have hch2 : List.Chain' (fun a b : CtxEntry => a.ts ≤ b.ts) (dq.entries ++ [e]) := by
      refine List.Chain'.append hchain (List.chain'_singleton e) ?_
      intro x hx y hy
      have hye : y = e := by simpa [eq_comm] using hy
      have hxmem : x ∈ dq.entries := by
        obtain ⟨hne, hxeq⟩ := List.mem_getLast?_eq_getLast hx
        rw [hxeq]
        exact List.getLast_mem hne
      rw [hye, he]
      exact le_trans (hbound x hxmem) hb
    simpa only [ctxAppend] using hch2.drop _
  · intro x hx
    simp only [ctxAppend] at hx
    have hx2 : x ∈ dq.entries ++ [e] := List.mem_of_mem_drop hx
    rcases List.mem_append.1 hx2 with h1 | h1
    · exact le_trans (hbound x h1) hb
    · have : x = e := by simpa using h1
      rw [this, he]

theorem context_for_chat_good {P : Policy} {b : Nat} {s : BotState} (chat_id : Int)
    (h : ctxInv P b s) :
    ctxGood P.context_window_messages b (context_for_chat P s.CHAT_CONTEXT chat_id) := by
  unfold context_for_chat
  rcases hl : alookup s.CHAT_CONTEXT chat_id with _ | dq
  · exact ⟨rfl, by simp, by simp, by simp⟩
  · exact h chat_id dq hl

theorem on_message_ctxInv {P : Policy} {b now : Nat} {s : BotState}
    {chat_id user_id : Int} {m : Msg} {platformOk : Bool}
    (h : ctxInv P b s) (hb : b ≤ now) :
    ctxInv P now (on_message P now s chat_id user_id m platformOk).1 := by
  intro chat dq hdq
  rw [on_message_CHAT_CONTEXT] at hdq
  by_cases hc : chat = chat_id
  · subst hc
    rw [alookup_ainsert_self] at hdq
    injection hdq with hdq2
    subst hdq2
    exact ctxGood_append (context_for_chat_good chat h) hb rfl
  · rw [alookup_ainsert_ne _ _ hc] at hdq
    exact ctxGood_mono (h chat dq hdq) hb

theorem runMessages_ctxInv (P : Policy) (events : List MsgEvent) :
    ∀ (s : BotState) (b : Nat), ctxInv P b s →
      List.Chain (fun x y => x ≤ y) b (events.map MsgEvent.now) →
      ∃ b2, ctxInv P b2 (runMessages P s events) := by
  induction events with
  | nil =>
      intro s b h _
      exact ⟨b, h⟩
  | cons e rest ih =>
      intro s b h hch
      rw [List.map_cons, List.chain_cons] at hch
      exact ih _ e.now (on_message_ctxInv h hch.1) hch.2

/-- C6: after any sequence of message events processed in time order from the
initial state, every chat's context window holds at most
`context_window_messages` entries with non-decreasing timestamps; and an
append never rewrites surviving entries — the new window is a suffix of the
old entries followed by the new one, so eviction from the front is the only
removal. -/
theorem C6_context_window_invariant (P : Policy) (events : List MsgEvent)
    (chat : Int) (dq : ChatCtx) (dq0 : ChatCtx) (e0 : CtxEntry)
    (hmono : List.Chain (fun x y => x ≤ y) 0 (events.map MsgEvent.now))
    (hdq : alookup (runMessages P initialState events).CHAT_CONTEXT chat = some dq) :
    dq.entries.length ≤ P.context_window_messages
  ∧ List.Chain' (fun a b : CtxEntry => a.ts ≤ b.ts) dq.entries
  ∧ (ctxAppend dq0 e0).entries <:+ dq0.entries ++ [e0] := by
  have hinit : ctxInv P 0 initialState := by
    intro c d hd
    simp [initialState, alookup] at hd
  obtain ⟨b2, hinv⟩ := runMessages_ctxInv P events initialState 0 hinit hmono
  obtain ⟨hcap, hlen, hchain, hbd⟩ := hinv chat dq hdq
  refine ⟨le_trans hlen (le_of_eq hcap), hchain, ?_⟩
  simp only [ctxAppend]
  exact List.drop_suffix _ _

/-- C6 witness: two quiet messages leave chat 1 with a 2-entry window, within
capacity 30 and time-ordered; appending to a full 1-slot window keeps a
suffix of the appended list. -/
theorem C6_witness :
    (List.Chain (fun x y => x ≤ y) 0 (sampleEvents.map MsgEvent.now)
     ∧ alookup (runMessages defaultPolicy initialState sampleEvents).CHAT_CONTEXT 1
         = some sampleWindow)
  ∧ (sampleWindow.entries.length ≤ defaultPolicy.context_window_messages
     ∧ List.Chain' (fun a b : CtxEntry => a.ts ≤ b.ts) sampleWindow.entries
     ∧ (ctxAppend sampleOldWindow sampleEntry).entries
         <:+ sampleOldWindow.entries ++ [sampleEntry]) :=
  ⟨⟨List.Chain.cons (by decide) (List.Chain.cons (by decide) List.Chain.nil), by decide⟩,
   C6_context_window_invariant defaultPolicy sampleEvents 1 sampleWindow sampleOldWindow
     sampleEntry
     (List.Chain.cons (by decide) (List.Chain.cons (by decide) List.Chain.nil))
     (by decide)⟩

end Ladki
